import Mathlib

/-!
Verification of the multi-backend query-execution proxy server
(`server.js` of query-db-with-ai): connection registry, query
normalization, backend dispatch with timeout racing, and the unified
result envelope.

The JavaScript code is shallowly embedded: JSON values are modelled by
`JVal` together with JavaScript truthiness; the driver libraries
(pg / mysql2 / mongodb) are modelled by oracle records carrying, for
each driver call the code performs, the call's latency in milliseconds
and its outcome; `Promise.race` against a timer becomes a comparison of
the call's latency with the timeout bound.  `JSON.parse` of the query
string is likewise an oracle (`Option JVal`, `none` meaning the parse
threw).  Module-level mutable state (the two connection caches) is
passed explicitly as a `ServerState`, and the observable driver
interactions of a request are recorded in an event trace.
-/

namespace QueryDB

/-- A JavaScript/JSON value (the values that can appear in a request body
or a parsed MongoDB query document). -/
inductive JVal where
  | null : JVal
  | bool (b : Bool) : JVal
  | num (n : Int) : JVal
  | str (s : String) : JVal
  | arr (xs : List JVal) : JVal
  | obj (fs : List (String × JVal)) : JVal

/-- JavaScript truthiness of a value (`null`, `false`, `0` and `""` are
falsy; arrays and objects are always truthy). -/
def truthy : JVal → Bool
  | .null => false
  | .bool b => b
  | .num n => n != 0
  | .str s => s != ""
  | .arr _ => true
  | .obj _ => true

/-- Truthiness of a possibly-`undefined` value (`none` = `undefined`). -/
def truthyO : Option JVal → Bool
  | none => false
  | some v => truthy v

/-- A JavaScript error: a message and an optional driver error `code`
(such as `'42P01'` or `'ECONNREFUSED'`). -/
structure JsError where
  message : String
  code : Option String := none
  deriving DecidableEq, Repr

/-- Property access `v.k` in JavaScript: `undefined` (`none`) on
non-objects, a `TypeError` on `null`, ordinary lookup on objects. -/
def getProp (v : JVal) (k : String) : Except JsError (Option JVal) :=
  match v with
  | .null => .error ⟨"Cannot read properties of null (reading " ++ k ++ ")", none⟩
  | .obj fs => .ok (fs.lookup k)
  | _ => .ok none

/-- JavaScript Array.isArray. -/
def isArray : JVal → Bool
  | .arr _ => true
  | _ => false

/-- The whitespace characters trimmed by JavaScript `String.prototype.trim`
(the ASCII ones; the code never feeds it exotic Unicode whitespace). -/
def isJsWhitespace (c : Char) : Bool :=
  c = ' ' || c = '\t' || c = '\n' || c = '\r' || c = '\x0b' || c = '\x0c'

/-- Trim on character lists: drop whitespace from both ends. -/
def jsTrimList (l : List Char) : List Char :=
  ((l.dropWhile isJsWhitespace).reverse.dropWhile isJsWhitespace).reverse

/-- JavaScript `s.trim()`. -/
def jsTrim (s : String) : String :=
  ⟨jsTrimList s.data⟩

/-- Substring containment on character lists. -/
def listContainsSeq (needle : List Char) : List Char → Bool
  | [] => needle.isEmpty
  | c :: cs => needle.isPrefixOf (c :: cs) || listContainsSeq needle cs

/-- JavaScript hay.includes(needle) for strings. -/
def strIncludes (hay needle : String) : Bool :=
  listContainsSeq needle.data hay.data

/-- Configuration constant CONFIG.queryTimeout (30 seconds). -/
def queryTimeout : Nat := 30000

/-- Configuration constant CONFIG.maxResultRows. -/
def maxResultRows : Nat := 1000

/-- Model of validateQuery(query, dbType): rejects a falsy or non-string query,
an all-whitespace query, and a query whose **trimmed** length exceeds
50000 characters; returns the trimmed query string otherwise. -/
def validateQuery (query : Option JVal) : Except JsError String :=
  match query with
  | some (.str s) =>
      if s = "" then .error ⟨"Query must be a non-empty string", none⟩
      else
        let trimmedQuery := jsTrim s
        if trimmedQuery = "" then .error ⟨"Query cannot be empty", none⟩
        else if trimmedQuery.length > 50000 then
          .error ⟨"Query is too long (max 50000 characters)", none⟩
        else .ok trimmedQuery
  | _ => .error ⟨"Query must be a non-empty string", none⟩

/-- The MongoDB operation allow-list (`validOperations`). -/
def validOperations : List String :=
  ["find", "findOne", "insertOne", "insertMany", "updateOne", "updateMany",
   "deleteOne", "deleteMany", "countDocuments", "aggregate"]

/-- JavaScript `===` comparison of a (possibly-undefined) value with a
string literal. -/
def valIsStr (v : Option JVal) (s : String) : Bool :=
  match v with
  | some (.str t) => t == s
  | _ => false

/-- Model of parseMongoQuery(query).  `JSON.parse` is modelled by the `parsed`
oracle (`none` = the parse threw).  A falsy `collection` is rejected; a
**truthy** `operation` outside the allow-list is rejected (a falsy
`operation` value such as `""` skips the check, exactly as
`mongoQuery.operation && !validOperations.includes(...)` does). -/
def parseMongoQuery (parsed : Option JVal) : Except JsError JVal :=
  match parsed with
  | none => .error ⟨"Invalid MongoDB query format: Expected valid JSON", none⟩
  | some mongoQuery => do
      let coll ← getProp mongoQuery "collection"
      if !truthyO coll then
        .error ⟨"MongoDB query must specify a collection", none⟩
      else
        let op ← getProp mongoQuery "operation"
        if truthyO op && !(validOperations.any (fun s => valIsStr op s)) then
          .error ⟨"Invalid MongoDB operation", none⟩
        else
          .ok mongoQuery

/-- Model of getDatabaseType(connectionString): prefix-based backend
detection, defaulting to postgres. -/
def getDatabaseType (connectionString : String) : String :=
  if connectionString.startsWith "postgresql://" || connectionString.startsWith "postgres://" then
    "postgres"
  else if connectionString.startsWith "mysql://" then
    "mysql"
  else if connectionString.startsWith "mongodb://" || connectionString.startsWith "mongodb+srv://" then
    "mongodb"
  else
    "postgres"

/-- A row / document in a result set: a JavaScript object. -/
abbrev Row := List (String × JVal)

/-- Observable driver-facing events of a request: a call to the query
validator, a registry lookup, construction of a new pool/client, a
driver call, and a MongoDB client close. -/
inductive Ev where
  | validate : Ev
  | lookup (kind conn : String) : Ev
  | connect (kind conn : String) : Ev
  | driver (call : String) : Ev
  | close (conn : String) : Ev
  deriving DecidableEq, Repr

/-- The module-level mutable caches of the server: the `pools` map
(shared by the postgres and mysql helpers) and the `mongoClients` map.
Handle instances are modelled by identity tags drawn from `nextId`. -/
structure ServerState where
  pools : List (String × Nat) := []
  mongoClients : List (String × Nat) := []
  nextId : Nat := 0
  deriving DecidableEq, Repr

/-- Model of getPostgresPool: construct and cache a pool on first use of a
connection string, return the cached instance afterwards.  Pool
construction is synchronous and cannot fail (`new Pool` does not
connect). -/
def getPostgresPool (connectionString : String) (s : ServerState) :
    Nat × ServerState × List Ev :=
  match s.pools.lookup connectionString with
  | some h => (h, s, [.lookup "pools" connectionString])
  | none =>
      (s.nextId,
       { s with pools := (connectionString, s.nextId) :: s.pools, nextId := s.nextId + 1 },
       [.lookup "pools" connectionString, .connect "pools" connectionString])

/-- Model of getMySQLPool: identical caching discipline over the same
`pools` map. -/
def getMySQLPool (connectionString : String) (s : ServerState) :
    Nat × ServerState × List Ev :=
  match s.pools.lookup connectionString with
  | some h => (h, s, [.lookup "pools" connectionString])
  | none =>
      (s.nextId,
       { s with pools := (connectionString, s.nextId) :: s.pools, nextId := s.nextId + 1 },
       [.lookup "pools" connectionString, .connect "pools" connectionString])

/-- Model of getMongoClient: on a cache miss, `client.connect()` runs
(modelled by the `connect` oracle); only a successful connect is cached.
On a cache hit the cached client is returned with no reconnect. -/
def getMongoClient (connectionString : String) (connect : Except JsError Unit)
    (s : ServerState) : Except JsError Nat × ServerState × List Ev :=
  match s.mongoClients.lookup connectionString with
  | some h => (.ok h, s, [.lookup "mongoClients" connectionString])
  | none =>
      match connect with
      | .ok _ =>
          (.ok s.nextId,
           { s with mongoClients := (connectionString, s.nextId) :: s.mongoClients,
                    nextId := s.nextId + 1 },
           [.lookup "mongoClients" connectionString,
            .connect "mongoClients" connectionString])
      | .error e =>
          (.error e, s,
           [.lookup "mongoClients" connectionString,
            .connect "mongoClients" connectionString])

/-- Model of closeMongoClient: close (tolerating close failures) and
evict the cached client for a connection string, if one is cached. -/
def closeMongoClient (connectionString : String) (s : ServerState) :
    ServerState × List Ev :=
  match s.mongoClients.lookup connectionString with
  | some _ =>
      ({ s with mongoClients := s.mongoClients.filter (fun p => p.1 != connectionString) },
       [.close connectionString])
  | none => (s, [])

/-- A driver call as an oracle: how long the underlying promise takes to
settle (milliseconds) and what it settles to. -/
structure DCall (α : Type) where
  latency : Nat
  result : Except JsError α

/-- Model of withTimeout(promise, timeoutMs, errorMessage): Promise.race
of the call against a timer.  If the call's latency exceeds the bound
the timer wins and the race rejects with the timeout message; otherwise
the call's own outcome is returned. -/
def withTimeout {α : Type} (c : DCall α) (timeoutMs : Nat) (errorMessage : String) :
    Except JsError α :=
  if c.latency > timeoutMs then .error ⟨errorMessage, none⟩ else c.result

/-- An awaited driver call that is NOT raced against a timer: the caller
waits for the driver however long it takes, and gets the driver's own
outcome. -/
def awaitCall {α : Type} (c : DCall α) : Except JsError α :=
  c.result

/-- A MongoDB driver write-operation result object, with the metadata
fields the driver result classes expose (absent fields are `none`). -/
structure WriteRes where
  acknowledged : Bool := true
  matchedCount : Option Int := none
  modifiedCount : Option Int := none
  upsertedCount : Option Int := none
  deletedCount : Option Int := none
  insertedCount : Option Int := none
  insertedId : Option JVal := none
  deriving Inhabited

/-- JavaScript a || b where a is a possibly-absent number: the first
operand wins exactly when it is present and truthy (nonzero). -/
def jsOrInt (a : Option Int) (b : Int) : Int :=
  match a with
  | some n => if n != 0 then n else b
  | none => b

/-- The unified rowCount fold for MongoDB write results, exactly as the
response assembly computes it:
modifiedCount || deletedCount || insertedCount || (insertedId ? 1 : 0). -/
def writeRowCount (w : WriteRes) : Int :=
  jsOrInt w.modifiedCount
    (jsOrInt w.deletedCount
      (jsOrInt w.insertedCount
        (if w.insertedId.isSome then 1 else 0)))

/-- Keys of a write-result object (Object.keys(mongoResult)), in the
field order of the driver result classes. -/
def writeResKeys (w : WriteRes) : List String :=
  ["acknowledged"]
    ++ (if w.matchedCount.isSome then ["matchedCount"] else [])
    ++ (if w.modifiedCount.isSome then ["modifiedCount"] else [])
    ++ (if w.upsertedCount.isSome then ["upsertedCount"] else [])
    ++ (if w.deletedCount.isSome then ["deletedCount"] else [])
    ++ (if w.insertedCount.isSome then ["insertedCount"] else [])
    ++ (if w.insertedId.isSome then ["insertedId"] else [])

/-- A write-result object rendered as the single response row
[mongoResult]. -/
def writeResRow (w : WriteRes) : Row :=
  [("acknowledged", JVal.bool w.acknowledged)]
    ++ (match w.matchedCount with | some n => [("matchedCount", JVal.num n)] | none => [])
    ++ (match w.modifiedCount with | some n => [("modifiedCount", JVal.num n)] | none => [])
    ++ (match w.upsertedCount with | some n => [("upsertedCount", JVal.num n)] | none => [])
    ++ (match w.deletedCount with | some n => [("deletedCount", JVal.num n)] | none => [])
    ++ (match w.insertedCount with | some n => [("insertedCount", JVal.num n)] | none => [])
    ++ (match w.insertedId with | some v => [("insertedId", v)] | none => [])

/-- The MongoDB driver oracle for one request: the connect outcome for a
cache miss, and one call descriptor per collection operation the
dispatch can perform.  The `find` oracle lists the documents matching
the filter in cursor order; the code's cursor .limit(n) becomes a take
on that list. -/
structure MongoDriver where
  connect : Except JsError Unit := .ok ()
  find : DCall (List Row) := ⟨0, .ok []⟩
  findOne : DCall (Option Row) := ⟨0, .ok none⟩
  insertOne : DCall WriteRes := ⟨0, .ok {}⟩
  insertMany : DCall WriteRes := ⟨0, .ok {}⟩
  updateOne : DCall WriteRes := ⟨0, .ok {}⟩
  updateMany : DCall WriteRes := ⟨0, .ok {}⟩
  deleteOne : DCall WriteRes := ⟨0, .ok {}⟩
  deleteMany : DCall WriteRes := ⟨0, .ok {}⟩
  countDocuments : DCall Nat := ⟨0, .ok 0⟩
  aggregate : DCall (List Row) := ⟨0, .ok []⟩

/-- Comparison of a JVal against a string case label of a switch. -/
def jvalIsStr (v : JVal) (s : String) : Bool :=
  match v with
  | .str t => t == s
  | _ => false

/-- The effective cursor limit of a find:
Math.min(mongoQuery.limit || 100, CONFIG.maxResultRows).  A falsy or
absent limit field falls back to 100.  (Numeric coercion of a truthy
non-numeric limit value is not modelled; no claim involves one.) -/
def effectiveFindLimit (limit : Option JVal) : Int :=
  min (match limit with
       | some (.num n) => if n != 0 then n else 100
       | _ => 100)
      (maxResultRows : Int)

/-- Outcome of the MongoDB operation dispatch: either a document list
(find / findOne / countDocuments / aggregate) or a write-result object. -/
inductive MongoOut where
  | docs (rows : List Row) : MongoOut
  | write (w : WriteRes) : MongoOut

/-- The operation switch of the mongodb branch of /api/query:
switch (mongoQuery.operation || 'find') over the parsed query, with only
find and findOne raced against the 30s timer; all other operations are
awaited directly.  Returns the operation outcome together with the
driver latency of the call made, and the trace of collection operations
performed. -/
def mongoDispatch (mongoQuery : JVal) (drv : MongoDriver) :
    Except JsError (MongoOut × Nat) × List Ev :=
  match getProp mongoQuery "operation" with
  | .error e => (.error e, [])
  | .ok op =>
    let opv : JVal := if truthyO op then op.getD .null else .str "find"
    if jvalIsStr opv "find" then
      match getProp mongoQuery "limit" with
      | .error e => (.error e, [])
      | .ok limit =>
        let lim := (effectiveFindLimit limit).toNat
        (withTimeout drv.find queryTimeout "MongoDB query timeout"
           |>.map (fun ds => (.docs (ds.take lim), drv.find.latency)),
         [.driver "find"])
    else if jvalIsStr opv "findOne" then
      (withTimeout drv.findOne queryTimeout "MongoDB query timeout"
         |>.map (fun d => (.docs (match d with | some doc => [doc] | none => []),
                           drv.findOne.latency)),
       [.driver "findOne"])
    else if jvalIsStr opv "insertOne" then
      match getProp mongoQuery "document" with
      | .error e => (.error e, [])
      | .ok doc =>
        if !truthyO doc then
          (.error ⟨"insertOne requires a \"document\" field", none⟩, [])
        else
          (awaitCall drv.insertOne |>.map (fun w => (.write w, drv.insertOne.latency)),
           [.driver "insertOne"])
    else if jvalIsStr opv "insertMany" then
      match getProp mongoQuery "documents" with
      | .error e => (.error e, [])
      | .ok docs =>
        if !truthyO docs || !(match docs with | some v => isArray v | none => false) then
          (.error ⟨"insertMany requires a \"documents\" array", none⟩, [])
        else
          (awaitCall drv.insertMany |>.map (fun w => (.write w, drv.insertMany.latency)),
           [.driver "insertMany"])
    else if jvalIsStr opv "updateOne" then
      match getProp mongoQuery "update" with
      | .error e => (.error e, [])
      | .ok upd =>
        if !truthyO upd then
          (.error ⟨"updateOne requires an \"update\" field", none⟩, [])
        else
          (awaitCall drv.updateOne |>.map (fun w => (.write w, drv.updateOne.latency)),
           [.driver "updateOne"])
    else if jvalIsStr opv "updateMany" then
      match getProp mongoQuery "update" with
      | .error e => (.error e, [])
      | .ok upd =>
        if !truthyO upd then
          (.error ⟨"updateMany requires an \"update\" field", none⟩, [])
        else
          (awaitCall drv.updateMany |>.map (fun w => (.write w, drv.updateMany.latency)),
           [.driver "updateMany"])
    else if jvalIsStr opv "deleteOne" then
      (awaitCall drv.deleteOne |>.map (fun w => (.write w, drv.deleteOne.latency)),
       [.driver "deleteOne"])
    else if jvalIsStr opv "deleteMany" then
      (awaitCall drv.deleteMany |>.map (fun w => (.write w, drv.deleteMany.latency)),
       [.driver "deleteMany"])
    else if jvalIsStr opv "countDocuments" then
      (awaitCall drv.countDocuments
         |>.map (fun n => (.docs [[("count", JVal.num (Int.ofNat n))]],
                           drv.countDocuments.latency)),
       [.driver "countDocuments"])
    else if jvalIsStr opv "aggregate" then
      match getProp mongoQuery "pipeline" with
      | .error e => (.error e, [])
      | .ok pipe =>
        if !truthyO pipe || !(match pipe with | some v => isArray v | none => false) then
          (.error ⟨"aggregate requires a \"pipeline\" array", none⟩, [])
        else
          (awaitCall drv.aggregate |>.map (fun ds => (.docs ds, drv.aggregate.latency)),
           [.driver "aggregate"])
    else
      (.error ⟨"Unsupported MongoDB operation", none⟩, [])

/-- The unified success envelope of /api/query.  hasMore and totalRows
are optional because not every backend branch includes them in its
res.json object: the postgres branch sets both, the mysql branch sets
only hasMore, and the mongodb branch sets neither. -/
structure QueryResponse where
  success : Bool
  rows : List Row
  columns : List String
  rowCount : Int
  executionTime : Nat
  dbType : String
  hasMore : Option Bool
  totalRows : Option Nat

/-- Response assembly of the mongodb branch for an array result:
rows are sliced to the cap, columns come from the first document's keys
(empty list for an empty result), rowCount is the full array length, and
no hasMore / totalRows field is emitted. -/
def mongoAssembleDocs (mongoResult : List Row) (elapsed : Nat) : QueryResponse :=
  { success := true
    rows := mongoResult.take maxResultRows
    columns := if mongoResult.length > 0 then (mongoResult.headD []).map Prod.fst else []
    rowCount := Int.ofNat mongoResult.length
    executionTime := elapsed
    dbType := "mongodb"
    hasMore := none
    totalRows := none }

/-- Response assembly of the mongodb branch for a write result: the
result object becomes the single row, its keys the columns, and
rowCount is the writeRowCount fold. -/
def mongoAssembleWrite (w : WriteRes) (elapsed : Nat) : QueryResponse :=
  { success := true
    rows := [writeResRow w]
    columns := writeResKeys w
    rowCount := writeRowCount w
    executionTime := elapsed
    dbType := "mongodb"
    hasMore := none
    totalRows := none }

/-- Body of the try block inside the mongodb branch of /api/query:
obtain (or connect) the cached client, parse the query, dispatch the
operation and assemble the response. -/
def mongoBranchInner (connectionString : String) (parsed : Option JVal)
    (drv : MongoDriver) (s : ServerState) :
    Except JsError QueryResponse × ServerState × List Ev :=
  match getMongoClient connectionString drv.connect s with
  | (.error e, s1, evs) => (.error e, s1, evs)
  | (.ok _, s1, evs) =>
      match parseMongoQuery parsed with
      | .error e => (.error e, s1, evs)
      | .ok mongoQuery =>
          match mongoDispatch mongoQuery drv with
          | (.error e, evs2) => (.error e, s1, evs ++ evs2)
          | (.ok (.docs ds, t), evs2) =>
              (.ok (mongoAssembleDocs ds t), s1, evs ++ evs2)
          | (.ok (.write w, t), evs2) =>
              (.ok (mongoAssembleWrite w t), s1, evs ++ evs2)

/-- The mongodb branch of /api/query, including its inner try/catch: on
ANY error thrown inside the branch, close and evict the cached client
before rethrowing to the outer handler. -/
def mongoBranch (connectionString : String) (parsed : Option JVal)
    (drv : MongoDriver) (s : ServerState) :
    Except JsError QueryResponse × ServerState × List Ev :=
  match mongoBranchInner connectionString parsed drv s with
  | (.ok r, s1, evs) => (.ok r, s1, evs)
  | (.error e, s1, evs) =>
      let closed := closeMongoClient connectionString s1
      (.error e, closed.1, evs ++ closed.2)

/-- A pg driver query result: the row array, the field metadata (already
mapped to names; `none` when result.fields is absent) and the driver's
rowCount. -/
structure PgResult where
  rows : List Row := []
  fields : Option (List String) := none
  rowCount : Int := 0

/-- Response assembly of the postgres branch: rows sliced to the cap,
columns from field metadata when present and the EMPTY list otherwise,
rowCount straight from the driver, hasMore and totalRows computed from
the full row array. -/
def pgAssemble (result : PgResult) (elapsed : Nat) : QueryResponse :=
  let rows := result.rows
  { success := true
    rows := rows.take maxResultRows
    columns := match result.fields with
               | some fs => fs
               | none => []
    rowCount := result.rowCount
    executionTime := elapsed
    dbType := "postgres"
    hasMore := some (decide (rows.length > maxResultRows))
    totalRows := some rows.length }

/-- A mysql2 execute result: either a row array (reads) or an
OkPacket/ResultSetHeader object (writes). -/
inductive MysqlRaw where
  | rows (rs : List Row) : MysqlRaw
  | okPacket (packet : Row) (affectedRows : Option Int) : MysqlRaw

/-- Response assembly of the mysql branch.  For a row array: rows sliced
to the cap, columns from field metadata when present and otherwise from
the first row's keys (empty for an empty result), rowCount the full
array length, hasMore from the full array length, and no totalRows
field.  For an OkPacket: the packet is the single row, its keys the
columns, rowCount is affectedRows when numeric and 1 otherwise, and
hasMore is false. -/
def mysqlAssemble (raw : MysqlRaw) (fields : Option (List String)) (elapsed : Nat) :
    QueryResponse :=
  match raw with
  | .rows rs =>
      { success := true
        rows := rs.take maxResultRows
        columns := match fields with
                   | some fs => fs
                   | none => match rs with
                             | [] => []
                             | r0 :: _ => r0.map Prod.fst
        rowCount := Int.ofNat rs.length
        executionTime := elapsed
        dbType := "mysql"
        hasMore := some (decide (rs.length > maxResultRows))
        totalRows := none }
  | .okPacket packet affectedRows =>
      { success := true
        rows := [packet]
        columns := packet.map Prod.fst
        rowCount := affectedRows.getD 1
        executionTime := elapsed
        dbType := "mysql"
        hasMore := some false
        totalRows := none }

/-- The catch block of /api/query: map a thrown error to the
user-facing message and machine-readable errorCode of the 500
envelope. -/
def mapQueryError (e : JsError) : String × String :=
  if strIncludes e.message "timeout" then
    ("Query execution timed out after 30 seconds. Try simplifying your query or adding LIMIT.",
     "TIMEOUT")
  else if e.code == some "42P01" || strIncludes e.message "does not exist" then
    ("Table or column does not exist. Please check your query.", "NOT_FOUND")
  else if e.code == some "42601" || strIncludes e.message "syntax error" then
    ("SQL syntax error: " ++ e.message, "SYNTAX_ERROR")
  else if strIncludes e.message "permission denied" then
    ("Permission denied. You may not have access to perform this operation.",
     "PERMISSION_DENIED")
  else
    (e.message, "QUERY_ERROR")

/-- The three body shapes /api/query can respond with: the 400 guard
body {error}, the 500 catch envelope {success:false, error, errorCode},
and the 200 success envelope. -/
inductive RouteBody where
  | badRequest (error : String) : RouteBody
  | failure (error errorCode : String) : RouteBody
  | ok (resp : QueryResponse) : RouteBody

/-- Full outcome of one request: HTTP status, body, the server caches
afterwards, and the event trace. -/
structure RouteOut where
  status : Nat
  body : RouteBody
  state : ServerState
  events : List Ev

/-- The string content of a JVal (the connection string is a string in
every claim; a non-string connection string would throw a TypeError in
getDatabaseType, which no claim exercises). -/
def jvalString : JVal → String
  | .str s => s
  | _ => ""

/-- Model of the POST /api/query handler.  `parsed` is the outcome of
JSON.parse on the validated query string (used only by the mongodb
branch); `pg` and `my` are the relational driver oracles, `mongo` the
document-store oracle.  The guard rejects a falsy connectionString or
query with 400 before anything else runs; validation runs before any
registry lookup or driver call; postgres and mysql queries are raced
against the 30s timer; errors map through mapQueryError into the 500
envelope. -/
def queryRoute (connectionString query dbType : Option JVal) (parsed : Option JVal)
    (pg : DCall PgResult) (my : DCall (MysqlRaw × Option (List String)))
    (mongo : MongoDriver) (s : ServerState) : RouteOut :=
  if !truthyO connectionString || !truthyO query then
    ⟨400, .badRequest "Connection string and query are required", s, []⟩
  else
    let connStr := jvalString (connectionString.getD .null)
    let detectedDbType : JVal :=
      if truthyO dbType then dbType.getD .null else .str (getDatabaseType connStr)
    match validateQuery query with
    | .error e =>
        let mapped := mapQueryError e
        ⟨500, .failure mapped.1 mapped.2, s, [.validate]⟩
    | .ok _validatedQuery =>
        if jvalIsStr detectedDbType "postgres" then
          let pool := getPostgresPool connStr s
          let evs := [Ev.validate] ++ pool.2.2 ++ [Ev.driver "pool.query"]
          match withTimeout pg queryTimeout "PostgreSQL query timeout" with
          | .error e =>
              let mapped := mapQueryError e
              ⟨500, .failure mapped.1 mapped.2, pool.2.1, evs⟩
          | .ok result =>
              ⟨200, .ok (pgAssemble result pg.latency), pool.2.1, evs⟩
        else if jvalIsStr detectedDbType "mysql" then
          let pool := getMySQLPool connStr s
          let evs := [Ev.validate] ++ pool.2.2 ++ [Ev.driver "pool.execute"]
          match withTimeout my queryTimeout "MySQL query timeout" with
          | .error e =>
              let mapped := mapQueryError e
              ⟨500, .failure mapped.1 mapped.2, pool.2.1, evs⟩
          | .ok result =>
              ⟨200, .ok (mysqlAssemble result.1 result.2 my.latency), pool.2.1, evs⟩
        else if jvalIsStr detectedDbType "mongodb" then
          match mongoBranch connStr parsed mongo s with
          | (.ok r, s1, evs) => ⟨200, .ok r, s1, [Ev.validate] ++ evs⟩
          | (.error e, s1, evs) =>
              let mapped := mapQueryError e
              ⟨500, .failure mapped.1 mapped.2, s1, [Ev.validate] ++ evs⟩
        else
          let mapped := mapQueryError ⟨"Unsupported database type", none⟩
          ⟨500, .failure mapped.1 mapped.2, s, [.validate]⟩

/-- The catch block of /api/test-connection: rewrite driver errors into
user-facing messages (refused / not-found / auth / SSL), falling back to
the raw message. -/
def mapConnError (e : JsError) : String :=
  if e.code == some "ECONNREFUSED" then
    "Connection refused. Please check if the database server is running and accessible."
  else if e.code == some "ENOTFOUND" then
    "Host not found. Please check the database hostname."
  else if strIncludes e.message "authentication" then
    "Authentication failed. Please check your username and password."
  else if strIncludes e.message "SSL" then
    "SSL connection error. The database may require specific SSL configuration."
  else
    e.message

/-- Driver oracle for /api/test-connection: the probe connect (raced
against a 10s timer) and the version query (awaited directly) per
backend family.  The route builds throwaway clients; it never touches
the registry caches. -/
structure TCDriver where
  pgConnect : DCall Unit := ⟨0, .ok ()⟩
  pgVersion : DCall String := ⟨0, .ok ""⟩
  myConnect : DCall Unit := ⟨0, .ok ()⟩
  myVersion : DCall String := ⟨0, .ok ""⟩
  mgConnect : DCall Unit := ⟨0, .ok ()⟩
  mgServerInfo : DCall String := ⟨0, .ok ""⟩

/-- Body shapes of /api/test-connection: the 400 guard body {error}, the
500 envelope {success:false, message:'Connection failed', error}, and
the 200 body {success, message, version, dbType}. -/
inductive TCBody where
  | badRequest (error : String) : TCBody
  | failure (message error : String) : TCBody
  | connected (message version dbType : String) : TCBody

/-- Model of the POST /api/test-connection handler: guard on a falsy
connectionString, then a one-shot connect probe plus version query for
the detected backend, with errors mapped by mapConnError into the 500
envelope. -/
def testConnectionRoute (connectionString : Option JVal) (drv : TCDriver) :
    Nat × TCBody × List Ev :=
  if !truthyO connectionString then
    (400, .badRequest "Connection string is required", [])
  else
    let connStr := jvalString (connectionString.getD .null)
    let dbType := getDatabaseType connStr
    if dbType = "postgres" then
      match withTimeout drv.pgConnect 10000 "PostgreSQL connection timeout" with
      | .error e => (500, .failure "Connection failed" (mapConnError e), [.driver "pg.connect"])
      | .ok _ =>
          match awaitCall drv.pgVersion with
          | .error e =>
              (500, .failure "Connection failed" (mapConnError e),
               [.driver "pg.connect", .driver "pg.version"])
          | .ok v =>
              (200, .connected "Successfully connected to PostgreSQL" v "postgres",
               [.driver "pg.connect", .driver "pg.version"])
    else if dbType = "mysql" then
      match withTimeout drv.myConnect 10000 "MySQL connection timeout" with
      | .error e => (500, .failure "Connection failed" (mapConnError e), [.driver "mysql.connect"])
      | .ok _ =>
          match awaitCall drv.myVersion with
          | .error e =>
              (500, .failure "Connection failed" (mapConnError e),
               [.driver "mysql.connect", .driver "mysql.version"])
          | .ok v =>
              (200, .connected "Successfully connected to MySQL" v "mysql",
               [.driver "mysql.connect", .driver "mysql.version"])
    else if dbType = "mongodb" then
      match withTimeout drv.mgConnect 10000 "MongoDB connection timeout" with
      | .error e => (500, .failure "Connection failed" (mapConnError e), [.driver "mongo.connect"])
      | .ok _ =>
          match awaitCall drv.mgServerInfo with
          | .error e =>
              (500, .failure "Connection failed" (mapConnError e),
               [.driver "mongo.connect", .driver "mongo.serverInfo"])
          | .ok v =>
              (200, .connected "Successfully connected to MongoDB" v "mongodb",
               [.driver "mongo.connect", .driver "mongo.serverInfo"])
    else
      (500, .failure "Connection failed" (mapConnError ⟨"Unsupported database type", none⟩), [])

/-- Body shapes of /api/schema: the 400 guard body {error}, the 500
envelope {success:false, error}, and the 200 body {success, tables,
dbType}. -/
inductive SchemaBody where
  | badRequest (error : String) : SchemaBody
  | failure (error : String) : SchemaBody
  | tables (ts : List (String × List Row)) (dbType : String) : SchemaBody

/-- Model of the POST /api/schema handler: guard on a falsy
connectionString, then a registry lookup and a catalog/sampling query
for the detected backend.  The grouping of catalog rows into table
descriptors and the auto-generated-column heuristics (which no claim
here exercises) are abstracted into the driver oracle's table result;
the relational catalog query is raced against a 10s timer, exactly as in
the source. -/
def schemaRoute (connectionString dbType : Option JVal)
    (catalog : DCall (List (String × List Row))) (mongoConnect : Except JsError Unit)
    (s : ServerState) : Nat × SchemaBody × ServerState × List Ev :=
  if !truthyO connectionString then
    (400, .badRequest "Connection string is required", s, [])
  else
    let connStr := jvalString (connectionString.getD .null)
    let detectedDbType : JVal :=
      if truthyO dbType then dbType.getD .null else .str (getDatabaseType connStr)
    if jvalIsStr detectedDbType "postgres" then
      let pool := getPostgresPool connStr s
      let evs := pool.2.2 ++ [Ev.driver "pool.query"]
      match withTimeout catalog 10000 "Schema query timeout" with
      | .error e => (500, .failure e.message, pool.2.1, evs)
      | .ok ts => (200, .tables ts "postgres", pool.2.1, evs)
    else if jvalIsStr detectedDbType "mysql" then
      let pool := getMySQLPool connStr s
      let evs := pool.2.2 ++ [Ev.driver "pool.execute"]
      match withTimeout catalog 10000 "Schema query timeout" with
      | .error e => (500, .failure e.message, pool.2.1, evs)
      | .ok ts => (200, .tables ts "mysql", pool.2.1, evs)
    else if jvalIsStr detectedDbType "mongodb" then
      match getMongoClient connStr mongoConnect s with
      | (.error e, s1, evs) => (500, .failure e.message, s1, evs)
      | (.ok _, s1, evs) =>
          match awaitCall catalog with
          | .error e => (500, .failure e.message, s1, evs ++ [Ev.driver "listCollections"])
          | .ok ts => (200, .tables ts "mongodb", s1, evs ++ [Ev.driver "listCollections"])
    else
      (500, .failure "Unsupported database type", s, [])

/-- Success flag of a route outcome's body (false for error bodies). -/
def RouteOut.isSuccess (o : RouteOut) : Bool :=
  match o.body with
  | .ok r => r.success
  | _ => false

/-- The errorCode of a 500 envelope, if the body is one. -/
def RouteOut.errorCode (o : RouteOut) : Option String :=
  match o.body with
  | .failure _ c => some c
  | _ => none

/-- Rows of a success envelope (empty for error bodies). -/
def RouteOut.respRows (o : RouteOut) : List Row :=
  match o.body with
  | .ok r => r.rows
  | _ => []

/-- The hasMore field of a success envelope, when the branch emitted
one. -/
def RouteOut.respHasMore (o : RouteOut) : Option Bool :=
  match o.body with
  | .ok r => r.hasMore
  | _ => none

/-- The totalRows field of a success envelope, when the branch emitted
one. -/
def RouteOut.respTotalRows (o : RouteOut) : Option Nat :=
  match o.body with
  | .ok r => r.totalRows
  | _ => none

/-- The rowCount field of a success envelope. -/
def RouteOut.respRowCount (o : RouteOut) : Option Int :=
  match o.body with
  | .ok r => some r.rowCount
  | _ => none

/-- Whether an event is a backend interaction (registry lookup, pool or
client construction, driver call, or client close), as opposed to the
pure query validation step. -/
def Ev.isBackend : Ev → Bool
  | .validate => false
  | _ => true

/-- Modelled from the spec: the rowCount priority fold as the spec words
it, taking the FIRST APPLICABLE (present) metadata value in the order
modifiedCount, deletedCount, insertedCount, then 1 for a present
insertedId, else 0.  Stated for comparison against writeRowCount, which
is translated from the code's truthiness-based fold. -/
def specWriteRowCount (w : WriteRes) : Int :=
  match w.modifiedCount with
  | some n => n
  | none =>
      match w.deletedCount with
      | some n => n
      | none =>
          match w.insertedCount with
          | some n => n
          | none => if w.insertedId.isSome then 1 else 0

/-- Whether an event is a driver call against a collection or table (as
opposed to validation, registry traffic, or a client close). -/
def Ev.isDriverCall : Ev → Bool
  | .driver _ => true
  | _ => false

/-- A concrete /api/query request probing the mongodb envelope: an
aggregate whose pipeline yields 1001 documents. -/
def aggregateProbe : RouteOut :=
  queryRoute (some (.str "mongodb://h/db"))
    (some (.str "\x7b\"collection\":\"c\",\"operation\":\"aggregate\",\"pipeline\":[]\x7d"))
    (some (.str "mongodb"))
    (some (.obj [("collection", .str "c"), ("operation", .str "aggregate"),
                 ("pipeline", .arr [])]))
    ⟨0, .ok {}⟩ ⟨0, .ok (.rows [], none)⟩
    { aggregate := ⟨0, .ok (List.replicate 1001 [])⟩ } ⟨[], [], 0⟩

/-- A concrete /api/query request probing the timeout race: an insertOne
whose driver call takes 40 seconds (beyond the 30-second bound) and then
succeeds. -/
def insertOneProbe : RouteOut :=
  queryRoute (some (.str "mongodb://h/db"))
    (some (.str "\x7b\"collection\":\"c\",\"operation\":\"insertOne\",\"document\":\x7b\"a\":1\x7d\x7d"))
    (some (.str "mongodb"))
    (some (.obj [("collection", .str "c"), ("operation", .str "insertOne"),
                 ("document", .obj [("a", .num 1)])]))
    ⟨0, .ok {}⟩ ⟨0, .ok (.rows [], none)⟩
    { insertOne := ⟨40000, .ok { insertedId := some (.str "id1") }⟩ } ⟨[], [], 0⟩

/-! Helper lemmas shared by the claim theorems. -/

/-- Looking up a key in a list from which that key was filtered out
yields nothing. -/
theorem lookup_filter_ne_key {β : Type} (k : String) (l : List (String × β)) :
    (l.filter (fun p => p.1 != k)).lookup k = none := by
  induction l with
  | nil => rfl
  | cons p t ih =>
      by_cases h : p.1 = k
      · simp [List.filter_cons, h, ih]
      · have hne : (k == p.1) = false := by
          simp [Ne.symm h]
        simp [List.filter_cons, h, List.lookup, ih, bne_iff_ne, hne]

/-- After closeMongoClient, the connection string is no longer cached. -/
theorem closeMongoClient_evicts (cs : String) (s : ServerState) :
    ((closeMongoClient cs s).1).mongoClients.lookup cs = none := by
  unfold closeMongoClient
  cases h : s.mongoClients.lookup cs with
  | none => simp [h]
  | some v => simp [h, lookup_filter_ne_key]

/-- A query accepted by the validator is a truthy (nonempty) string. -/
theorem validateQuery_ok_truthy (q : JVal) (vq : String)
    (h : validateQuery (some q) = .ok vq) : truthy q = true := by
  cases q with
  | str s =>
      by_cases hs : s = ""
      · simp [validateQuery, hs] at h
      · simp [truthy, hs]
  | null => simp [validateQuery] at h
  | bool b => simp [validateQuery] at h
  | num n => simp [validateQuery] at h
  | arr xs => simp [validateQuery] at h
  | obj fs => simp [validateQuery] at h

/-- C6: for every write-operation result shaped like an actual driver
result (update results carry modifiedCount only, delete results
deletedCount only, insertMany results insertedCount only, insertOne
results at most an insertedId), the code's truthiness fold
writeRowCount agrees with the spec's first-applicable priority fold
specWriteRowCount; in particular an update modifying zero documents and
a delete deleting zero documents both fold to rowCount 0. -/
theorem C6_write_rowCount (w : WriteRes)
    (hshape :
      (w.modifiedCount.isSome ∧ w.deletedCount = none ∧ w.insertedCount = none ∧
         w.insertedId = none) ∨
      (w.modifiedCount = none ∧ w.deletedCount.isSome ∧ w.insertedCount = none ∧
         w.insertedId = none) ∨
      (w.modifiedCount = none ∧ w.deletedCount = none ∧ w.insertedCount.isSome ∧
         w.insertedId = none) ∨
      (w.modifiedCount = none ∧ w.deletedCount = none ∧ w.insertedCount = none)) :
    writeRowCount w = specWriteRowCount w ∧
    writeRowCount { matchedCount := some 3, modifiedCount := some 0 } = 0 ∧
    writeRowCount { deletedCount := some 0 } = 0 := by
  refine ⟨?_, by decide, by decide⟩
  rcases hshape with ⟨h1, h2, h3, h4⟩ | ⟨h1, h2, h3, h4⟩ | ⟨h1, h2, h3, h4⟩ | ⟨h1, h2, h3⟩
  · obtain ⟨n, hn⟩ := Option.isSome_iff_exists.mp h1
    by_cases hz : n = 0 <;>
      simp [writeRowCount, specWriteRowCount, jsOrInt, hn, h2, h3, h4, hz]
  · obtain ⟨n, hn⟩ := Option.isSome_iff_exists.mp h2
    by_cases hz : n = 0 <;>
      simp [writeRowCount, specWriteRowCount, jsOrInt, hn, h1, h3, h4, hz]
  · obtain ⟨n, hn⟩ := Option.isSome_iff_exists.mp h3
    by_cases hz : n = 0 <;>
      simp [writeRowCount, specWriteRowCount, jsOrInt, hn, h1, h2, h4, hz]
  · simp [writeRowCount, specWriteRowCount, jsOrInt, h1, h2, h3]

/-- Witness for C6 at an update result that modified zero of three
matched documents. -/
theorem C6_write_rowCount_witness :
    writeRowCount { matchedCount := some 3, modifiedCount := some 0 } =
      specWriteRowCount { matchedCount := some 3, modifiedCount := some 0 } ∧
    writeRowCount { matchedCount := some 3, modifiedCount := some 0 } = 0 ∧
    writeRowCount { deletedCount := some 0 } = 0 :=
  C6_write_rowCount { matchedCount := some 3, modifiedCount := some 0 }
    (Or.inl ⟨rfl, rfl, rfl, rfl⟩)

/-- C3: registry caching.  Given a first successful MongoDB-client
lookup for a connection string, every subsequent lookup (whatever the
connect oracle would now do) returns the very same handle with no state
change and no reconnect event; if construction fails on an uncached
string, the error propagates and the cache is unchanged; after an
explicit eviction the string is no longer cached; and the postgres and
mysql pool helpers are likewise idempotent per string, their second
call emitting only a lookup event. -/
theorem C3_registry (cs : String) (s : ServerState) (connect2 : Except JsError Unit)
    (e : JsError) (h1 : Nat) (s1 : ServerState) (evs1 : List Ev)
    (hfirst : getMongoClient cs (.ok ()) s = (.ok h1, s1, evs1))
    (habsent : s.mongoClients.lookup cs = none) :
    getMongoClient cs connect2 s1 = (.ok h1, s1, [.lookup "mongoClients" cs]) ∧
    getMongoClient cs (.error e) s =
      (.error e, s, [.lookup "mongoClients" cs, .connect "mongoClients" cs]) ∧
    ((closeMongoClient cs s1).1).mongoClients.lookup cs = none ∧
    getPostgresPool cs (getPostgresPool cs s).2.1 =
      ((getPostgresPool cs s).1, (getPostgresPool cs s).2.1, [.lookup "pools" cs]) ∧
    getMySQLPool cs (getMySQLPool cs s).2.1 =
      ((getMySQLPool cs s).1, (getMySQLPool cs s).2.1, [.lookup "pools" cs]) := by
  have hcached : s1.mongoClients.lookup cs = some h1 := by
    unfold getMongoClient at hfirst
    rw [habsent] at hfirst
    simp only at hfirst
    obtain ⟨rfl, rfl, rfl⟩ := by
      simpa using hfirst
    simp [List.lookup]
  refine ⟨?_, ?_, closeMongoClient_evicts cs s1, ?_, ?_⟩
  · unfold getMongoClient
    rw [hcached]
  · unfold getMongoClient
    rw [habsent]
  · unfold getPostgresPool
    cases h : s.pools.lookup cs with
    | some v => simp [h]
    | none => simp [h, List.lookup]
  · unfold getMySQLPool
    cases h : s.pools.lookup cs with
    | some v => simp [h]
    | none => simp [h, List.lookup]

/-- Witness for C3 on an initially empty registry. -/
theorem C3_registry_witness :
    getMongoClient "mongodb://w" (.ok ()) ⟨[], [("mongodb://w", 0)], 1⟩ =
      (.ok 0, ⟨[], [("mongodb://w", 0)], 1⟩, [.lookup "mongoClients" "mongodb://w"]) ∧
    getMongoClient "mongodb://w" (.error ⟨"boom", none⟩) ⟨[], [], 0⟩ =
      (.error ⟨"boom", none⟩, ⟨[], [], 0⟩,
       [.lookup "mongoClients" "mongodb://w", .connect "mongoClients" "mongodb://w"]) ∧
    ((closeMongoClient "mongodb://w" ⟨[], [("mongodb://w", 0)], 1⟩).1).mongoClients.lookup
        "mongodb://w" = none ∧
    getPostgresPool "mongodb://w" (getPostgresPool "mongodb://w" ⟨[], [], 0⟩).2.1 =
      ((getPostgresPool "mongodb://w" ⟨[], [], 0⟩).1,
       (getPostgresPool "mongodb://w" ⟨[], [], 0⟩).2.1, [.lookup "pools" "mongodb://w"]) ∧
    getMySQLPool "mongodb://w" (getMySQLPool "mongodb://w" ⟨[], [], 0⟩).2.1 =
      ((getMySQLPool "mongodb://w" ⟨[], [], 0⟩).1,
       (getMySQLPool "mongodb://w" ⟨[], [], 0⟩).2.1, [.lookup "pools" "mongodb://w"]) :=
  C3_registry "mongodb://w" ⟨[], [], 0⟩ (.ok ()) ⟨"boom", none⟩ 0
    ⟨[], [("mongodb://w", 0)], 1⟩
    [.lookup "mongoClients" "mongodb://w", .connect "mongoClients" "mongodb://w"]
    rfl rfl

/-- The try block of the mongodb branch never mutates the caches after
the client lookup: its final state is the post-getMongoClient state
(parsing and dispatch are pure). -/
theorem mongoBranchInner_state (cs : String) (parsed : Option JVal) (drv : MongoDriver)
    (s : ServerState) :
    (mongoBranchInner cs parsed drv s).2.1 = (getMongoClient cs drv.connect s).2.1 := by
  unfold mongoBranchInner
  rcases hg : getMongoClient cs drv.connect s with ⟨r, s1, evs⟩
  cases r with
  | error e => simp
  | ok h =>
      cases hp : parseMongoQuery parsed with
      | error e => simp
      | ok q =>
          rcases hd : mongoDispatch q drv with ⟨dr, evs2⟩
          cases dr with
          | error e => simp [hd]
          | ok out =>
              rcases out with ⟨mo, t⟩
              cases mo <;> simp [hd]

/-- After getMongoClient, the connection string is cached whenever it
already was, or the connect succeeded. -/
theorem getMongoClient_caches (cs : String) (c : Except JsError Unit) (s : ServerState)
    (hc : (s.mongoClients.lookup cs).isSome ∨ c = .ok ()) :
    (((getMongoClient cs c s).2.1).mongoClients.lookup cs).isSome := by
  unfold getMongoClient
  cases h : s.mongoClients.lookup cs with
  | some v => simp [h]
  | none =>
      rcases hc with hc | rfl
      · rw [h] at hc
        simp at hc
      · simp [h, List.lookup]

/-- C7: if the mongodb branch fails for a connection string whose client
was cached (already present, or successfully connected during this
request), the cached client is evicted — the final cache no longer holds
the string, the close happens as the last action before the error
propagates, and the next lookup for the same string reconnects. -/
theorem C7_mongo_eviction (cs : String) (parsed : Option JVal) (drv : MongoDriver)
    (s s1 : ServerState) (e : JsError) (evs : List Ev)
    (hrun : mongoBranch cs parsed drv s = (.error e, s1, evs))
    (hc : (s.mongoClients.lookup cs).isSome ∨ drv.connect = .ok ()) :
    s1.mongoClients.lookup cs = none ∧
    evs.getLast? = some (.close cs) ∧
    (getMongoClient cs (.ok ()) s1).2.2 =
      [.lookup "mongoClients" cs, .connect "mongoClients" cs] := by
  unfold mongoBranch at hrun
  rcases hi : mongoBranchInner cs parsed drv s with ⟨r, s', evs'⟩
  rw [hi] at hrun
  cases r with
  | ok resp => simp at hrun
  | error e' =>
      simp only at hrun
      obtain ⟨he, hs1, hevs⟩ := by
        simpa using hrun
      have hsome : ((s').mongoClients.lookup cs).isSome := by
        have := mongoBranchInner_state cs parsed drv s
        rw [hi] at this
        simp only at this
        rw [this]
        exact getMongoClient_caches cs drv.connect s hc
      obtain ⟨v, hv⟩ := Option.isSome_iff_exists.mp hsome
      have hclose : closeMongoClient cs s' =
          ({ s' with mongoClients := (s').mongoClients.filter (fun p => p.1 != cs) },
           [.close cs]) := by
        unfold closeMongoClient
        rw [hv]
      constructor
      · rw [← hs1]
        exact closeMongoClient_evicts cs s'
      constructor
      · rw [← hevs, hclose]
        simp
      · have hnone : s1.mongoClients.lookup cs = none := by
          rw [← hs1]
          exact closeMongoClient_evicts cs s'
        unfold getMongoClient
        rw [hnone]

/-- Witness for C7: a find whose driver call fails on a fresh registry. -/
theorem C7_mongo_eviction_witness :
    (ServerState.mk [] [] 1).mongoClients.lookup "mongodb://w" = none ∧
    ([Ev.lookup "mongoClients" "mongodb://w", Ev.connect "mongoClients" "mongodb://w",
      Ev.driver "find", Ev.close "mongodb://w"].getLast? = some (.close "mongodb://w")) ∧
    (getMongoClient "mongodb://w" (.ok ()) (ServerState.mk [] [] 1)).2.2 =
      [.lookup "mongoClients" "mongodb://w", .connect "mongoClients" "mongodb://w"] :=
  C7_mongo_eviction "mongodb://w" (some (.obj [("collection", .str "c")]))
    { find := ⟨0, .error ⟨"boom", none⟩⟩ } ⟨[], [], 0⟩ ⟨[], [], 1⟩ ⟨"boom", none⟩
    [Ev.lookup "mongoClients" "mongodb://w", Ev.connect "mongoClients" "mongodb://w",
     Ev.driver "find", Ev.close "mongodb://w"]
    rfl (Or.inr rfl)

/-- C8 counterexample: a postgres result with one row but no field
metadata gets an EMPTY column list — the postgres branch never falls
back to the first row's keys. -/
theorem C8_counterexample :
    (pgAssemble { rows := [[("a", JVal.num 1)]], fields := none, rowCount := 1 } 0).columns =
      [] ∧
    (pgAssemble { rows := [[("a", JVal.num 1)]], fields := none, rowCount := 1 } 0).rows.length =
      1 :=
  ⟨rfl, rfl⟩

/-- C8 amended: the postgres branch takes columns from field metadata
when present and otherwise the empty list (never the first row's keys);
the mysql branch takes metadata when present and otherwise the first
row's keys (empty for an empty result); the mongodb branch always the
first document's keys (empty for an empty result); an empty result set
with no metadata yields an empty column list on every backend, and
column extraction never errors. -/
theorem C8_columns (rows : List Row) (fs : List String) (n : Int) (t : Nat)
    (r0 : Row) (rest ds : List Row) (d0 : Row) :
    (pgAssemble { rows := rows, fields := some fs, rowCount := n } t).columns = fs ∧
    (pgAssemble { rows := rows, fields := none, rowCount := n } t).columns = [] ∧
    (mysqlAssemble (.rows rows) (some fs) t).columns = fs ∧
    (mysqlAssemble (.rows (r0 :: rest)) none t).columns = r0.map Prod.fst ∧
    (mysqlAssemble (.rows []) none t).columns = [] ∧
    (mongoAssembleDocs (d0 :: ds) t).columns = d0.map Prod.fst ∧
    (mongoAssembleDocs [] t).columns = [] := by
  refine ⟨rfl, rfl, rfl, rfl, rfl, ?_, rfl⟩
  simp [mongoAssembleDocs]

set_option maxRecDepth 20000 in
/-- C1 counterexample: a query whose underlying result set has 1001 rows
(a mongodb aggregate) is truncated to 1000 rows with the true count in
rowCount, but the mongodb envelope carries NO hasMore field at all —
hasMore is not true for this backend, contrary to the claim. -/
theorem C1_counterexample :
    aggregateProbe.status = 200 ∧
    aggregateProbe.respRows.length = maxResultRows ∧
    aggregateProbe.respRowCount = some 1001 ∧
    aggregateProbe.respHasMore = none ∧
    aggregateProbe.respTotalRows = none ∧
    1001 > maxResultRows := by
  refine ⟨rfl, by decide, rfl, rfl, rfl, by decide⟩

/-- C1 amended: result sets larger than 1000 rows are truncated to
exactly 1000 rows on all three backends; the postgres envelope reports
hasMore = true and the true count in totalRows (and in rowCount, given
the driver's rowCount equals the row-array length); the mysql envelope
reports hasMore = true and the true count in rowCount but has no
totalRows field; the mongodb envelope reports the true count in
rowCount but has neither hasMore nor totalRows. -/
theorem C1_truncation (pgr : PgResult) (t1 t2 t3 : Nat)
    (hpg : pgr.rows.length > maxResultRows)
    (hpc : pgr.rowCount = Int.ofNat pgr.rows.length)
    (rs : List Row) (fields : Option (List String)) (hmy : rs.length > maxResultRows)
    (ds : List Row) (hmg : ds.length > maxResultRows) :
    (pgAssemble pgr t1).rows.length = maxResultRows ∧
    (pgAssemble pgr t1).hasMore = some true ∧
    (pgAssemble pgr t1).totalRows = some pgr.rows.length ∧
    (pgAssemble pgr t1).rowCount = Int.ofNat pgr.rows.length ∧
    (mysqlAssemble (.rows rs) fields t2).rows.length = maxResultRows ∧
    (mysqlAssemble (.rows rs) fields t2).hasMore = some true ∧
    (mysqlAssemble (.rows rs) fields t2).rowCount = Int.ofNat rs.length ∧
    (mysqlAssemble (.rows rs) fields t2).totalRows = none ∧
    (mongoAssembleDocs ds t3).rows.length = maxResultRows ∧
    (mongoAssembleDocs ds t3).rowCount = Int.ofNat ds.length ∧
    (mongoAssembleDocs ds t3).hasMore = none ∧
    (mongoAssembleDocs ds t3).totalRows = none := by
  refine ⟨?_, ?_, rfl, hpc, ?_, ?_, rfl, rfl, ?_, rfl, rfl, rfl⟩
  · simp only [pgAssemble, List.length_take]
    omega
  · simp only [pgAssemble, Option.some.injEq, decide_eq_true_eq]
    exact hpg
  · simp only [mysqlAssemble, List.length_take]
    omega
  · simp only [mysqlAssemble, Option.some.injEq, decide_eq_true_eq]
    exact hmy
  · simp only [mongoAssembleDocs, List.length_take]
    omega

set_option maxRecDepth 20000 in
/-- Witness for C1 at result sets of 1001 empty rows. -/
theorem C1_truncation_witness :
    (pgAssemble { rows := List.replicate 1001 [], fields := none, rowCount := 1001 } 0).rows.length =
      maxResultRows ∧
    (pgAssemble { rows := List.replicate 1001 [], fields := none, rowCount := 1001 } 0).hasMore =
      some true ∧
    (pgAssemble { rows := List.replicate 1001 [], fields := none, rowCount := 1001 } 0).totalRows =
      some (List.replicate 1001 ([] : Row)).length ∧
    (pgAssemble { rows := List.replicate 1001 [], fields := none, rowCount := 1001 } 0).rowCount =
      Int.ofNat (List.replicate 1001 ([] : Row)).length ∧
    (mysqlAssemble (.rows (List.replicate 1001 [])) none 0).rows.length = maxResultRows ∧
    (mysqlAssemble (.rows (List.replicate 1001 [])) none 0).hasMore = some true ∧
    (mysqlAssemble (.rows (List.replicate 1001 [])) none 0).rowCount =
      Int.ofNat (List.replicate 1001 ([] : Row)).length ∧
    (mysqlAssemble (.rows (List.replicate 1001 [])) none 0).totalRows = none ∧
    (mongoAssembleDocs (List.replicate 1001 []) 0).rows.length = maxResultRows ∧
    (mongoAssembleDocs (List.replicate 1001 []) 0).rowCount =
      Int.ofNat (List.replicate 1001 ([] : Row)).length ∧
    (mongoAssembleDocs (List.replicate 1001 []) 0).hasMore = none ∧
    (mongoAssembleDocs (List.replicate 1001 []) 0).totalRows = none :=
  C1_truncation { rows := List.replicate 1001 [], fields := none, rowCount := 1001 } 0 0 0
    (by simp [maxResultRows]) (by simp)
    (List.replicate 1001 []) none (by simp [maxResultRows])
    (List.replicate 1001 []) (by simp [maxResultRows])

/-- Mapping any error whose message mentions a timeout yields the
TIMEOUT code. -/
theorem mapQueryError_timeout (m : String) (c : Option String)
    (h : strIncludes m "timeout" = true) :
    mapQueryError ⟨m, c⟩ =
      ("Query execution timed out after 30 seconds. Try simplifying your query or adding LIMIT.",
       "TIMEOUT") := by
  simp [mapQueryError, h]

/-- A parsed payload with a truthy collection and a falsy-or-absent
operation passes parseMongoQuery. -/
theorem parseMongoQuery_ok_of_fields (fs : List (String × JVal))
    (hcoll : truthyO (fs.lookup "collection") = true)
    (hop : fs.lookup "operation" = none) :
    parseMongoQuery (some (.obj fs)) = .ok (.obj fs) := by
  simp [parseMongoQuery, getProp, bind, Except.bind, hcoll, hop]
  simp [truthyO]

/-- A find whose driver call outlasts the 30s bound makes the whole
mongodb branch fail with the MongoDB timeout error. -/
theorem mongoBranch_find_timeout (cs : String) (fs : List (String × JVal))
    (drv : MongoDriver) (s : ServerState)
    (hcoll : truthyO (fs.lookup "collection") = true)
    (hop : fs.lookup "operation" = none)
    (hlat : drv.find.latency > queryTimeout)
    (hconn : drv.connect = .ok ()) :
    (mongoBranch cs (some (.obj fs)) drv s).1 =
      .error ⟨"MongoDB query timeout", none⟩ := by
  have hparse := parseMongoQuery_ok_of_fields fs hcoll hop
  have hdisp : mongoDispatch (.obj fs) drv =
      (.error ⟨"MongoDB query timeout", none⟩, [.driver "find"]) := by
    simp [mongoDispatch, getProp, hop, truthyO, jvalIsStr, withTimeout, hlat, Except.map]
  unfold mongoBranch mongoBranchInner
  cases hlook : s.mongoClients.lookup cs with
  | some h => simp [getMongoClient, hlook, hparse, hdisp, closeMongoClient]
  | none => simp [getMongoClient, hlook, hconn, hparse, hdisp, closeMongoClient]

/-- A findOne whose driver call outlasts the 30s bound makes the whole
mongodb branch fail with the MongoDB timeout error. -/
theorem mongoBranch_findOne_timeout (cs : String) (fs : List (String × JVal))
    (drv : MongoDriver) (s : ServerState)
    (hcoll : truthyO (fs.lookup "collection") = true)
    (hop : fs.lookup "operation" = some (.str "findOne"))
    (hlat : drv.findOne.latency > queryTimeout)
    (hconn : drv.connect = .ok ()) :
    (mongoBranch cs (some (.obj fs)) drv s).1 =
      .error ⟨"MongoDB query timeout", none⟩ := by
  have hopcheck :
      (truthyO (some (JVal.str "findOne")) &&
        !(validOperations.any fun t => valIsStr (some (JVal.str "findOne")) t)) = false := by
    decide
  have hparse : parseMongoQuery (some (.obj fs)) = .ok (.obj fs) := by
    simp [parseMongoQuery, getProp, bind, Except.bind, hcoll, hop, hopcheck]
  have hdisp : mongoDispatch (.obj fs) drv =
      (.error ⟨"MongoDB query timeout", none⟩, [.driver "findOne"]) := by
    simp [mongoDispatch, getProp, hop, truthyO, truthy, jvalIsStr, withTimeout, hlat,
          Except.map]
  unfold mongoBranch mongoBranchInner
  cases hlook : s.mongoClients.lookup cs with
  | some h => simp [getMongoClient, hlook, hparse, hdisp, closeMongoClient]
  | none => simp [getMongoClient, hlook, hconn, hparse, hdisp, closeMongoClient]

/-- A postgres query whose driver call outlasts the 30s bound yields the
500 TIMEOUT envelope. -/
theorem queryRoute_pg_timeout (cs q : JVal) (vq : String)
    (hq : validateQuery (some q) = .ok vq) (hcs : truthy cs = true)
    (parsed : Option JVal) (pg : DCall PgResult)
    (my : DCall (MysqlRaw × Option (List String))) (mongo : MongoDriver)
    (s : ServerState) (hpg : pg.latency > queryTimeout) :
    (queryRoute (some cs) (some q) (some (.str "postgres")) parsed pg my mongo s).status =
      500 ∧
    (queryRoute (some cs) (some q) (some (.str "postgres")) parsed pg my mongo s).errorCode =
      some "TIMEOUT" := by
  have hqt := validateQuery_ok_truthy q vq hq
  have hmapPg := mapQueryError_timeout "PostgreSQL query timeout" none (by decide)
  have hc1 : truthyO (some cs) = true := by simp [truthyO, hcs]
  have hc2 : truthyO (some q) = true := by simp [truthyO, hqt]
  have hdbt : truthyO (some (JVal.str "postgres")) = true := rfl
  constructor <;>
    simp [queryRoute, hc1, hc2, hdbt, hq, jvalIsStr, withTimeout, hpg, hmapPg,
          RouteOut.errorCode]

/-- A mysql query whose driver call outlasts the 30s bound yields the
500 TIMEOUT envelope. -/
theorem queryRoute_my_timeout (cs q : JVal) (vq : String)
    (hq : validateQuery (some q) = .ok vq) (hcs : truthy cs = true)
    (parsed : Option JVal) (pg : DCall PgResult)
    (my : DCall (MysqlRaw × Option (List String))) (mongo : MongoDriver)
    (s : ServerState) (hmy : my.latency > queryTimeout) :
    (queryRoute (some cs) (some q) (some (.str "mysql")) parsed pg my mongo s).status = 500 ∧
    (queryRoute (some cs) (some q) (some (.str "mysql")) parsed pg my mongo s).errorCode =
      some "TIMEOUT" := by
  have hqt := validateQuery_ok_truthy q vq hq
  have hmapMy := mapQueryError_timeout "MySQL query timeout" none (by decide)
  have hc1 : truthyO (some cs) = true := by simp [truthyO, hcs]
  have hc2 : truthyO (some q) = true := by simp [truthyO, hqt]
  have hdbt : truthyO (some (JVal.str "mysql")) = true := rfl
  constructor <;>
    simp [queryRoute, hc1, hc2, hdbt, hq, jvalIsStr, withTimeout, hmy, hmapMy,
          RouteOut.errorCode]

/-- Any error of the mongodb branch surfaces as the 500 envelope with
the errorCode assigned by mapQueryError. -/
theorem queryRoute_mongo_branch_error (cs q : JVal) (vq : String)
    (hq : validateQuery (some q) = .ok vq) (hcs : truthy cs = true)
    (parsed : Option JVal) (pg : DCall PgResult)
    (my : DCall (MysqlRaw × Option (List String))) (mongo : MongoDriver)
    (s : ServerState) (e : JsError)
    (hb : (mongoBranch (jvalString cs) parsed mongo s).1 = .error e) :
    (queryRoute (some cs) (some q) (some (.str "mongodb")) parsed pg my mongo s).status =
      500 ∧
    (queryRoute (some cs) (some q) (some (.str "mongodb")) parsed pg my mongo s).errorCode =
      some (mapQueryError e).2 := by
  have hqt := validateQuery_ok_truthy q vq hq
  have hc1 : truthyO (some cs) = true := by simp [truthyO, hcs]
  have hc2 : truthyO (some q) = true := by simp [truthyO, hqt]
  have hdbt : truthyO (some (JVal.str "mongodb")) = true := rfl
  rcases hmb : mongoBranch (jvalString cs) parsed mongo s with ⟨r, s1, evs⟩
  rw [hmb] at hb
  simp only at hb
  subst hb
  constructor <;>
    simp [queryRoute, hc1, hc2, hdbt, hq, jvalIsStr, hmb, RouteOut.errorCode]

/-- C2 amended: the timeout race covers the postgres query, the mysql
query, and the mongodb find and findOne calls — each of those, when its
driver call outlasts 30 seconds, produces the 500 envelope with
errorCode TIMEOUT.  (The remaining mongodb operations are awaited
without the race; see the counterexample.) -/
theorem C2_timeout (cs q : JVal) (vq : String)
    (hq : validateQuery (some q) = .ok vq) (hcs : truthy cs = true)
    (parsed : Option JVal) (pg : DCall PgResult)
    (my : DCall (MysqlRaw × Option (List String))) (mongo mgF mgFO : MongoDriver)
    (s : ServerState) (fsF fsFO : List (String × JVal))
    (hpg : pg.latency > queryTimeout) (hmy : my.latency > queryTimeout)
    (hfind : mgF.find.latency > queryTimeout) (hfo : mgFO.findOne.latency > queryTimeout)
    (hcF : mgF.connect = .ok ()) (hcFO : mgFO.connect = .ok ())
    (hcollF : truthyO (fsF.lookup "collection") = true)
    (hopF : fsF.lookup "operation" = none)
    (hcollFO : truthyO (fsFO.lookup "collection") = true)
    (hopFO : fsFO.lookup "operation" = some (.str "findOne")) :
    (queryRoute (some cs) (some q) (some (.str "postgres")) parsed pg my mongo s).status =
      500 ∧
    (queryRoute (some cs) (some q) (some (.str "postgres")) parsed pg my mongo s).errorCode =
      some "TIMEOUT" ∧
    (queryRoute (some cs) (some q) (some (.str "mysql")) parsed pg my mongo s).status = 500 ∧
    (queryRoute (some cs) (some q) (some (.str "mysql")) parsed pg my mongo s).errorCode =
      some "TIMEOUT" ∧
    (queryRoute (some cs) (some q) (some (.str "mongodb")) (some (.obj fsF)) pg my mgF
        s).status = 500 ∧
    (queryRoute (some cs) (some q) (some (.str "mongodb")) (some (.obj fsF)) pg my mgF
        s).errorCode = some "TIMEOUT" ∧
    (queryRoute (some cs) (some q) (some (.str "mongodb")) (some (.obj fsFO)) pg my mgFO
        s).status = 500 ∧
    (queryRoute (some cs) (some q) (some (.str "mongodb")) (some (.obj fsFO)) pg my mgFO
        s).errorCode = some "TIMEOUT" := by
  have hmapMg := mapQueryError_timeout "MongoDB query timeout" none (by decide)
  have hbF := mongoBranch_find_timeout (jvalString cs) fsF mgF s hcollF hopF hfind hcF
  have hbFO := mongoBranch_findOne_timeout (jvalString cs) fsFO mgFO s hcollFO hopFO hfo hcFO
  have h1 := queryRoute_pg_timeout cs q vq hq hcs parsed pg my mongo s hpg
  have h2 := queryRoute_my_timeout cs q vq hq hcs parsed pg my mongo s hmy
  have h3 := queryRoute_mongo_branch_error cs q vq hq hcs (some (.obj fsF)) pg my mgF s
    ⟨"MongoDB query timeout", none⟩ hbF
  have h4 := queryRoute_mongo_branch_error cs q vq hq hcs (some (.obj fsFO)) pg my mgFO s
    ⟨"MongoDB query timeout", none⟩ hbFO
  rw [hmapMg] at h3 h4
  exact ⟨h1.1, h1.2, h2.1, h2.2, h3.1, h3.2, h4.1, h4.2⟩

/-- Witness for C2: all four raced calls at latency 40000 on concrete
requests. -/
theorem C2_timeout_witness :
    (queryRoute (some (.str "x")) (some (.str "SELECT 1")) (some (.str "postgres")) none
        ⟨40000, .ok {}⟩ ⟨40000, .ok (.rows [], none)⟩ {} ⟨[], [], 0⟩).status = 500 ∧
    (queryRoute (some (.str "x")) (some (.str "SELECT 1")) (some (.str "postgres")) none
        ⟨40000, .ok {}⟩ ⟨40000, .ok (.rows [], none)⟩ {} ⟨[], [], 0⟩).errorCode =
      some "TIMEOUT" ∧
    (queryRoute (some (.str "x")) (some (.str "SELECT 1")) (some (.str "mysql")) none
        ⟨40000, .ok {}⟩ ⟨40000, .ok (.rows [], none)⟩ {} ⟨[], [], 0⟩).status = 500 ∧
    (queryRoute (some (.str "x")) (some (.str "SELECT 1")) (some (.str "mysql")) none
        ⟨40000, .ok {}⟩ ⟨40000, .ok (.rows [], none)⟩ {} ⟨[], [], 0⟩).errorCode =
      some "TIMEOUT" ∧
    (queryRoute (some (.str "x")) (some (.str "SELECT 1")) (some (.str "mongodb"))
        (some (.obj [("collection", .str "c")])) ⟨40000, .ok {}⟩
        ⟨40000, .ok (.rows [], none)⟩ { find := ⟨40000, .ok []⟩ } ⟨[], [], 0⟩).status = 500 ∧
    (queryRoute (some (.str "x")) (some (.str "SELECT 1")) (some (.str "mongodb"))
        (some (.obj [("collection", .str "c")])) ⟨40000, .ok {}⟩
        ⟨40000, .ok (.rows [], none)⟩ { find := ⟨40000, .ok []⟩ } ⟨[], [], 0⟩).errorCode =
      some "TIMEOUT" ∧
    (queryRoute (some (.str "x")) (some (.str "SELECT 1")) (some (.str "mongodb"))
        (some (.obj [("collection", .str "c"), ("operation", .str "findOne")]))
        ⟨40000, .ok {}⟩ ⟨40000, .ok (.rows [], none)⟩ { findOne := ⟨40000, .ok none⟩ }
        ⟨[], [], 0⟩).status = 500 ∧
    (queryRoute (some (.str "x")) (some (.str "SELECT 1")) (some (.str "mongodb"))
        (some (.obj [("collection", .str "c"), ("operation", .str "findOne")]))
        ⟨40000, .ok {}⟩ ⟨40000, .ok (.rows [], none)⟩ { findOne := ⟨40000, .ok none⟩ }
        ⟨[], [], 0⟩).errorCode = some "TIMEOUT" :=
  C2_timeout (.str "x") (.str "SELECT 1") "SELECT 1" rfl rfl none
    ⟨40000, .ok {}⟩ ⟨40000, .ok (.rows [], none)⟩ {} { find := ⟨40000, .ok []⟩ }
    { findOne := ⟨40000, .ok none⟩ } ⟨[], [], 0⟩ [("collection", .str "c")]
    [("collection", .str "c"), ("operation", .str "findOne")]
    (by decide) (by decide) (by decide) (by decide) rfl rfl rfl rfl rfl rfl

/-- C2 counterexample: an insertOne whose driver call takes 40 seconds
is NOT raced against the timer — the request succeeds with a 200
envelope instead of failing with errorCode TIMEOUT. -/
theorem C2_counterexample :
    insertOneProbe.status = 200 ∧
    insertOneProbe.isSuccess = true ∧
    insertOneProbe.errorCode = none ∧
    insertOneProbe.respRowCount = some 1 ∧
    40000 > queryTimeout :=
  ⟨rfl, rfl, rfl, rfl, by decide⟩

/-- C9: a find whose payload carries no limit field runs with the
default effective limit min(100, 1000) = 100; a collection with more
than 100 matching documents is truncated to exactly 100 returned rows,
and the mongodb envelope carries neither a hasMore nor a totalRows
field to signal the truncation. -/
theorem C9_find_default_limit (fs : List (String × JVal)) (drv : MongoDriver)
    (docs : List Row) (t : Nat)
    (hop : fs.lookup "operation" = none)
    (hlim : fs.lookup "limit" = none)
    (hlat : drv.find.latency ≤ queryTimeout)
    (hres : drv.find.result = .ok docs)
    (hgt : docs.length > 100) :
    mongoDispatch (.obj fs) drv =
      (.ok (.docs (docs.take 100), drv.find.latency), [.driver "find"]) ∧
    (mongoAssembleDocs (docs.take 100) t).rows.length = 100 ∧
    (mongoAssembleDocs (docs.take 100) t).hasMore = none ∧
    (mongoAssembleDocs (docs.take 100) t).totalRows = none := by
  have hnt : ¬(drv.find.latency > queryTimeout) := by omega
  refine ⟨?_, ?_, rfl, rfl⟩
  · have hlim100 : (effectiveFindLimit none).toNat = 100 := by decide
    simp [mongoDispatch, getProp, hop, hlim, truthyO, jvalIsStr, withTimeout, hnt, hres,
          Except.map, hlim100]
  · simp only [mongoAssembleDocs, List.length_take, maxResultRows]
    omega

/-- Witness for C9 on a collection of 150 matching documents. -/
theorem C9_find_default_limit_witness :
    mongoDispatch (.obj [("collection", .str "c")])
        { find := ⟨5, .ok (List.replicate 150 [])⟩ } =
      (.ok (.docs ((List.replicate 150 []).take 100),
            (DCall.mk 5 (.ok (List.replicate 150 ([] : Row)))).latency),
       [.driver "find"]) ∧
    (mongoAssembleDocs ((List.replicate 150 []).take 100) 0).rows.length = 100 ∧
    (mongoAssembleDocs ((List.replicate 150 []).take 100) 0).hasMore = none ∧
    (mongoAssembleDocs ((List.replicate 150 []).take 100) 0).totalRows = none :=
  C9_find_default_limit [("collection", .str "c")]
    { find := ⟨5, .ok (List.replicate 150 [])⟩ } (List.replicate 150 []) 0
    rfl rfl (by decide) rfl (by simp)

/-- Trimming a block of letters followed by one trailing space removes
exactly that space. -/
theorem jsTrimList_aaa_space (n : Nat) :
    jsTrimList (List.replicate (n + 1) 'a' ++ [' ']) = List.replicate (n + 1) 'a' := by
  have ha : isJsWhitespace 'a' = false := by decide
  have hs : isJsWhitespace ' ' = true := by decide
  have h1 : List.dropWhile isJsWhitespace (List.replicate (n + 1) 'a' ++ [' ']) =
      List.replicate (n + 1) 'a' ++ [' '] := by
    rw [List.replicate_succ, List.cons_append, List.dropWhile_cons, ha]
    simp
  have h2 : List.dropWhile isJsWhitespace (' ' :: List.replicate (n + 1) 'a') =
      List.replicate (n + 1) 'a' := by
    rw [List.dropWhile_cons, hs]
    simp only [if_true]
    rw [List.replicate_succ, List.dropWhile_cons, ha]
    simp
  unfold jsTrimList
  rw [h1, List.reverse_append, List.reverse_replicate]
  have h3 : ([' '] : List Char).reverse ++ List.replicate (n + 1) 'a' =
      ' ' :: List.replicate (n + 1) 'a' := by simp
  rw [h3, h2, List.reverse_replicate]

/-- Trimming a block of letters is the identity. -/
theorem jsTrimList_aaa (n : Nat) :
    jsTrimList (List.replicate (n + 1) 'a') = List.replicate (n + 1) 'a' := by
  have ha : isJsWhitespace 'a' = false := by decide
  have h1 : List.dropWhile isJsWhitespace (List.replicate (n + 1) 'a') =
      List.replicate (n + 1) 'a' := by
    rw [List.replicate_succ, List.dropWhile_cons, ha]
    simp
  unfold jsTrimList
  rw [h1, List.reverse_replicate, h1, List.reverse_replicate]

/-- C4 counterexample: an input of 50001 characters — 50000 letters and
one trailing space — passes validation, because the length bound is
checked on the TRIMMED query (50000 characters), not the raw input. -/
theorem C4_counterexample :
    (String.mk (List.replicate 50000 'a' ++ [' '])).length = 50001 ∧
    validateQuery (some (.str (String.mk (List.replicate 50000 'a' ++ [' '])))) =
      .ok (String.mk (List.replicate 50000 'a')) := by
  have htrim : jsTrimList (List.replicate 50000 'a' ++ [' ']) = List.replicate 50000 'a' :=
    jsTrimList_aaa_space 49999
  constructor
  · show (List.replicate 50000 'a' ++ [' ']).length = 50001
    rw [List.length_append, List.length_replicate, List.length_cons, List.length_nil]
  · have hne : String.mk (List.replicate 50000 'a' ++ [' ']) ≠ "" := by
      intro h
      have h2 : List.replicate 50000 'a' ++ [' '] = ([] : List Char) :=
        congrArg String.data h
      have h3 := congrArg List.length h2
      rw [List.length_append, List.length_replicate, List.length_cons, List.length_nil] at h3
      exact absurd h3 (by omega)
    have htrim2 : jsTrim (String.mk (List.replicate 50000 'a' ++ [' '])) =
        String.mk (List.replicate 50000 'a') := by
      show String.mk (jsTrimList (List.replicate 50000 'a' ++ [' '])) =
        String.mk (List.replicate 50000 'a')
      rw [htrim]
    have hne2 : String.mk (List.replicate 50000 'a') ≠ "" := by
      intro h
      have h2 : List.replicate 50000 'a' = ([] : List Char) := congrArg String.data h
      have h3 := congrArg List.length h2
      rw [List.length_replicate, List.length_nil] at h3
      exact absurd h3 (by omega)
    have hlen : (String.mk (List.replicate 50000 'a')).length = 50000 := by
      show (List.replicate 50000 'a').length = 50000
      rw [List.length_replicate]
    unfold validateQuery
    simp only [if_neg hne, htrim2, if_neg hne2, hlen]
    rw [if_neg (by omega : ¬(50000 > 50000))]

/-- C4 amended: the validator rejects non-string and empty inputs and
any input whose TRIMMED length exceeds 50000 characters (the raw length
is not what is checked — see the counterexample), and a validation
failure produces the 500 envelope with no registry lookup and no
backend or driver call (the only recorded step is the validation
itself). -/
theorem C4_validation (s : String) (h50 : (jsTrim s).length > 50000)
    (v : Option JVal) (hv : ∀ t, v ≠ some (.str t))
    (conn q dbt parsed : Option JVal) (pg : DCall PgResult)
    (my : DCall (MysqlRaw × Option (List String))) (mongo : MongoDriver)
    (st : ServerState) (e : JsError)
    (hc : truthyO conn = true) (hqt : truthyO q = true)
    (he : validateQuery q = .error e) :
    validateQuery (some (.str s)) =
      .error ⟨"Query is too long (max 50000 characters)", none⟩ ∧
    validateQuery v = .error ⟨"Query must be a non-empty string", none⟩ ∧
    validateQuery (some (.str "")) =
      .error ⟨"Query must be a non-empty string", none⟩ ∧
    queryRoute conn q dbt parsed pg my mongo st =
      ⟨500, .failure (mapQueryError e).1 (mapQueryError e).2, st, [.validate]⟩ := by
  refine ⟨?_, ?_, rfl, ?_⟩
  · have hs : s ≠ "" := by
      intro h
      rw [h] at h50
      exact absurd h50 (by decide)
    have ht : jsTrim s ≠ "" := by
      intro h
      rw [h] at h50
      exact absurd h50 (by decide)
    unfold validateQuery
    simp only [if_neg hs, if_neg ht, if_pos h50]
  · cases v with
    | none => rfl
    | some x =>
        cases x with
        | str t => exact absurd rfl (hv t)
        | null => rfl
        | bool b => rfl
        | num n => rfl
        | arr xs => rfl
        | obj fs => rfl
  · simp [queryRoute, hc, hqt, he]

/-- Witness for C4: a 50001-letter query is rejected as too long, a
numeric query is rejected as non-string, and a whitespace-only query is
rejected with the 500 envelope and no backend traffic. -/
theorem C4_validation_witness :
    validateQuery (some (.str (String.mk (List.replicate 50001 'a')))) =
      .error ⟨"Query is too long (max 50000 characters)", none⟩ ∧
    validateQuery (some (.num 7)) = .error ⟨"Query must be a non-empty string", none⟩ ∧
    validateQuery (some (.str "")) =
      .error ⟨"Query must be a non-empty string", none⟩ ∧
    queryRoute (some (.str "postgresql://h/db")) (some (.str " ")) none none
        ⟨0, .ok {}⟩ ⟨0, .ok (.rows [], none)⟩ {} ⟨[], [], 0⟩ =
      ⟨500,
       .failure (mapQueryError ⟨"Query cannot be empty", none⟩).1
         (mapQueryError ⟨"Query cannot be empty", none⟩).2,
       ⟨[], [], 0⟩, [.validate]⟩ :=
  C4_validation (String.mk (List.replicate 50001 'a'))
    (by
      have h : jsTrimList (List.replicate 50001 'a') = List.replicate 50001 'a' :=
        jsTrimList_aaa 50000
      show (String.mk (jsTrimList (List.replicate 50001 'a'))).length > 50000
      rw [show (String.mk (jsTrimList (List.replicate 50001 'a'))).length =
            (jsTrimList (List.replicate 50001 'a')).length from rfl, h,
          List.length_replicate]
      omega)
    (some (.num 7)) (by intro t h; cases h)
    (some (.str "postgresql://h/db")) (some (.str " ")) none none
    ⟨0, .ok {}⟩ ⟨0, .ok (.rows [], none)⟩ {} ⟨[], [], 0⟩
    ⟨"Query cannot be empty", none⟩ rfl rfl rfl

/-- C5 counterexample: a payload whose operation field is the empty
string names an operation outside the allow-list, yet normalization
ACCEPTS it — the allow-list check is skipped for falsy operation values
(and the dispatch then runs find). -/
theorem C5_counterexample :
    validOperations.contains "" = false ∧
    parseMongoQuery (some (.obj [("collection", .str "c"), ("operation", .str "")])) =
      .ok (.obj [("collection", .str "c"), ("operation", .str "")]) :=
  ⟨by decide, rfl⟩

/-- C5 amended: normalization fails on an unparseable payload, on a
falsy/absent collection, and on a TRUTHY operation value outside the
allow-list (a falsy one such as the empty string skips the check and
runs find); any parse failure in the mongodb branch produces no
collection-operation driver call (though the client connection is
obtained, and evicted, around it); and an absent operation dispatches
find. -/
theorem C5_normalization (fs gs ps : List (String × JVal)) (op : JVal)
    (cs : String) (parsed : Option JVal) (drv : MongoDriver) (s : ServerState)
    (e : JsError)
    (hmiss : truthyO (fs.lookup "collection") = false)
    (hgcoll : truthyO (gs.lookup "collection") = true)
    (hgop : gs.lookup "operation" = some op)
    (hoptruthy : truthy op = true)
    (hnotin : (validOperations.any fun t => valIsStr (some op) t) = false)
    (hparse : parseMongoQuery parsed = .error e)
    (hpop : ps.lookup "operation" = none) :
    parseMongoQuery none =
      .error ⟨"Invalid MongoDB query format: Expected valid JSON", none⟩ ∧
    parseMongoQuery (some (.obj fs)) =
      .error ⟨"MongoDB query must specify a collection", none⟩ ∧
    parseMongoQuery (some (.obj gs)) = .error ⟨"Invalid MongoDB operation", none⟩ ∧
    ((mongoBranch cs parsed drv s).2.2.all fun ev => !ev.isDriverCall) = true ∧
    (mongoDispatch (.obj ps) drv).2 = [.driver "find"] := by
  refine ⟨rfl, ?_, ?_, ?_, ?_⟩
  · simp [parseMongoQuery, getProp, bind, Except.bind, hmiss]
  · have hg2 : truthyO (some op) = true := by simp [truthyO, hoptruthy]
    simp [parseMongoQuery, getProp, bind, Except.bind, hgcoll, hgop, hg2, hnotin]
  · unfold mongoBranch mongoBranchInner
    cases hlook : s.mongoClients.lookup cs with
    | some h =>
        simp [getMongoClient, hlook, hparse, closeMongoClient, Ev.isDriverCall]
    | none =>
        cases hcn : drv.connect with
        | ok u =>
            simp [getMongoClient, hlook, hcn, hparse, closeMongoClient, List.lookup,
                  Ev.isDriverCall]
        | error ec =>
            simp [getMongoClient, hlook, hcn, closeMongoClient, Ev.isDriverCall]
  · simp [mongoDispatch, getProp, hpop, truthyO, jvalIsStr]

/-- Witness for C5 on concrete payloads: a missing collection, a numeric
operation outside the allow-list, an unparseable payload run through the
branch, and an operation-free payload dispatching find. -/
theorem C5_normalization_witness :
    parseMongoQuery none =
      .error ⟨"Invalid MongoDB query format: Expected valid JSON", none⟩ ∧
    parseMongoQuery (some (.obj [("filter", .obj [])])) =
      .error ⟨"MongoDB query must specify a collection", none⟩ ∧
    parseMongoQuery (some (.obj [("collection", .str "c"), ("operation", .num 5)])) =
      .error ⟨"Invalid MongoDB operation", none⟩ ∧
    ((mongoBranch "mongodb://w" none {} ⟨[], [], 0⟩).2.2.all fun ev =>
        !ev.isDriverCall) = true ∧
    (mongoDispatch (.obj [("collection", .str "c")]) {}).2 = [.driver "find"] :=
  C5_normalization [("filter", .obj [])]
    [("collection", .str "c"), ("operation", .num 5)] [("collection", .str "c")]
    (.num 5) "mongodb://w" none {} ⟨[], [], 0⟩
    ⟨"Invalid MongoDB query format: Expected valid JSON", none⟩
    rfl rfl rfl rfl (by decide) rfl rfl

/-- C10: a request to /api/query with a missing connectionString or
query, to /api/test-connection with a missing connectionString, or to
/api/schema with a missing connectionString is answered 400 with the
bare {error} body — not the 500 {success:false} envelope — with the
caches untouched and no validation, registry or driver event at all. -/
theorem C10_missing_fields (conn q dbt parsed : Option JVal) (pg : DCall PgResult)
    (my : DCall (MysqlRaw × Option (List String))) (mongo : MongoDriver)
    (s : ServerState) (tc : TCDriver)
    (catalog : DCall (List (String × List Row))) (mgc : Except JsError Unit)
    (hmiss : conn = none ∨ q = none) :
    queryRoute conn q dbt parsed pg my mongo s =
      ⟨400, .badRequest "Connection string and query are required", s, []⟩ ∧
    testConnectionRoute none tc =
      (400, .badRequest "Connection string is required", []) ∧
    schemaRoute none dbt catalog mgc s =
      (400, .badRequest "Connection string is required", s, []) := by
  refine ⟨?_, rfl, rfl⟩
  rcases hmiss with rfl | rfl
  · simp [queryRoute, truthyO]
  · simp [queryRoute, truthyO]

/-- Witness for C10 with the connection string absent. -/
theorem C10_missing_fields_witness :
    queryRoute none (some (.str "SELECT 1")) none none ⟨0, .ok {}⟩
        ⟨0, .ok (.rows [], none)⟩ {} ⟨[], [], 0⟩ =
      ⟨400, .badRequest "Connection string and query are required", ⟨[], [], 0⟩, []⟩ ∧
    testConnectionRoute none {} =
      (400, .badRequest "Connection string is required", []) ∧
    schemaRoute none none ⟨0, .ok []⟩ (.ok ()) ⟨[], [], 0⟩ =
      (400, .badRequest "Connection string is required", ⟨[], [], 0⟩, []) :=
  C10_missing_fields none (some (.str "SELECT 1")) none none ⟨0, .ok {}⟩
    ⟨0, .ok (.rows [], none)⟩ {} ⟨[], [], 0⟩ {} ⟨0, .ok []⟩ (.ok ())
    (Or.inl rfl)

end QueryDB
